import Mathlib

/-!
Verification of the Nuance statistical-claim auditor.

This file shallowly embeds the deterministic core of the repository:
* `src/nuance/statistical_checks.py` — the pattern library, the seven
  per-claim rules and the whole-text metrics calculator,
* `app.py` — the overall-status derivation and the reliability scorer,
* `src/nuance/retry.py` — the validate-with-retry loop (the network call,
  `json.loads` and Pydantic validation are external collaborators and are
  abstracted as oracle parameters; the fence-stripping string code that the
  repository itself contains is embedded faithfully).

The Python rules work by `re.search` / `re.findall` over lower-cased text,
so the embedding starts with a small backtracking regular-expression engine
covering exactly the constructs the source patterns use: literals, character
classes (`\d`, `\s`, `.`, enumerated sets), word boundaries `\b`, greedy
`?` and `*`/`+` over classes, the lazy `.*?`, concatenation and alternation
with Python's preference order (leftmost match, greedy preferring longer,
alternation preferring earlier branches).  Texts are `List Char`;
`re.IGNORECASE` is modelled by lower-casing the haystack and writing the
patterns in lower case (the repository's patterns and inputs are ASCII).
-/

namespace Nuance

/-- Python's `\w` (ASCII range, which is all the repository's texts use). -/
def isWordChar (c : Char) : Bool := c.isAlphanum || c == '_'

/-- Python's `\s` (ASCII range): space, tab, newline, carriage return,
vertical tab, form feed. -/
def isPySpace (c : Char) : Bool :=
  c == ' ' || c == '\t' || c == '\n' || c == '\r' || c == '\x0b' || c == '\x0c'

/-- Character classes occurring in the source patterns. -/
inductive CC where
  | digit
  | space
  | anyChar
  | chars (cs : List Char)
  | union (a b : CC)

def ccMatch : CC → Char → Bool
  | .digit, c => c.isDigit
  | .space, c => isPySpace c
  | .anyChar, c => c != '\n'
  | .chars cs, c => cs.contains c
  | .union a b, c => ccMatch a c || ccMatch b c

/-- Regular expressions, restricted to the constructs the source uses.
Repetition is only ever applied to character classes in the source
(`\d+`, `\s*`, `.*?`), which keeps the matcher structurally recursive. -/
inductive RE where
  | eps
  | lit (c : Char)
  | cls (cc : CC)
  | wb
  | seq (a b : RE)
  | alt (a b : RE)
  | opt (a : RE)
  | starCls (cc : CC)
  | starClsLazy (cc : CC)

/-- Word boundary `\b`: true iff exactly one side of the current position is a word
character.  `prev` is the character just before the position (none at the
start of the haystack). -/
def wordBoundary (prev : Option Char) (s : List Char) : Bool :=
  (match prev with | none => false | some c => isWordChar c) !=
  (match s with | [] => false | c :: _ => isWordChar c)

/-- Greedy `cls*`: consume as many class characters as possible, handing
each stopping point to the continuation, longest first. -/
def runStar {α : Type} (cc : CC) : Option Char → List Char →
    (Option Char → List Char → Option α) → Option α
  | prev, [], k => k prev []
  | prev, x :: xs, k =>
    if ccMatch cc x then
      (runStar cc (some x) xs k).orElse (fun _ => k prev (x :: xs))
    else k prev (x :: xs)

/-- Lazy `cls*?`: hand the shortest stopping points to the continuation
first. -/
def runStarLazy {α : Type} (cc : CC) : Option Char → List Char →
    (Option Char → List Char → Option α) → Option α
  | prev, [], k => k prev []
  | prev, x :: xs, k =>
    if ccMatch cc x then
      (k prev (x :: xs)).orElse (fun _ => runStarLazy cc (some x) xs k)
    else k prev (x :: xs)

/-- Backtracking matcher in continuation-passing style.  The continuation
receives the character preceding the remaining suffix (for later `\b`
tests) and the remaining suffix; alternatives are tried in Python's
preference order, so the first `some` result is Python's match. -/
def reRun {α : Type} : RE → Option Char → List Char →
    (Option Char → List Char → Option α) → Option α
  | .eps, prev, s, k => k prev s
  | .lit _, _, [], _ => none
  | .lit c, _, x :: xs, k => if x == c then k (some x) xs else none
  | .cls _, _, [], _ => none
  | .cls cc, _, x :: xs, k => if ccMatch cc x then k (some x) xs else none
  | .wb, prev, s, k => if wordBoundary prev s then k prev s else none
  | .seq a b, prev, s, k => reRun a prev s (fun p r => reRun b p r k)
  | .alt a b, prev, s, k =>
      (reRun a prev s k).orElse (fun _ => reRun b prev s k)
  | .opt a, prev, s, k => (reRun a prev s k).orElse (fun _ => k prev s)
  | .starCls cc, prev, s, k => runStar cc prev s k
  | .starClsLazy cc, prev, s, k => runStarLazy cc prev s k

/-- Try to match `r` anchored at the current position; on success return the
preceding character and remaining suffix after Python's preferred match. -/
def reMatchAt (r : RE) (prev : Option Char) (s : List Char) :
    Option (Option Char × List Char) :=
  reRun r prev s (fun p rest => some (p, rest))

/-- Search, `re.search` as a Boolean: does `r` match anywhere in the haystack? -/
def reSearchAux (r : RE) : Option Char → List Char → Bool
  | prev, s =>
    match reMatchAt r prev s with
    | some _ => true
    | none =>
      match s with
      | [] => false
      | x :: xs => reSearchAux r (some x) xs

def reSearch (r : RE) (s : List Char) : Bool := reSearchAux r none s

/-- Leftmost match text, `re.search(...).group()`: the text of the leftmost preferred match. -/
def reSearchMatch (r : RE) : Option Char → List Char → Option (List Char)
  | prev, s =>
    match reMatchAt r prev s with
    | some (_, rest) => some (s.take (s.length - rest.length))
    | none =>
      match s with
      | [] => none
      | x :: xs => reSearchMatch r (some x) xs

/-- Match count, `len(re.findall(r, s))`: count non-overlapping matches scanning left to
right, advancing past each match (one character past an empty match).  The
fuel argument is an upper bound on the number of scanning steps; every step
either consumes a character or ends the scan, so `s.length + 1` suffices. -/
def reCountAux (r : RE) : Nat → Option Char → List Char → Nat
  | 0, _, _ => 0
  | fuel + 1, prev, s =>
    match reMatchAt r prev s with
    | some (p, rest) =>
      if rest.length == s.length then
        match s with
        | [] => 1
        | x :: xs => 1 + reCountAux r fuel (some x) xs
      else 1 + reCountAux r fuel p rest
    | none =>
      match s with
      | [] => 0
      | x :: xs => reCountAux r fuel (some x) xs

def reCount (r : RE) (s : List Char) : Nat := reCountAux r (s.length + 1) none s

/-! Pattern builders: `rstr` is a literal string, `rseq` concatenation,
`rgroup` an alternation `(a|b|...)` preferring earlier branches, `bword`
a `\b...\b`-delimited literal, `dplus` is `\d+`, `dstar` is `\d*`,
`splus` is `\s+`, `sstar` is `\s*`. -/

def rstr (s : String) : RE := (s.toList.map RE.lit).foldr RE.seq RE.eps

def rseq (l : List RE) : RE := l.foldr RE.seq RE.eps

/-- A pattern that never matches (base case for alternation folds). -/
def rfail : RE := RE.cls (CC.chars [])

def rgroup (l : List RE) : RE :=
  match l with
  | [] => rfail
  | [r] => r
  | r :: rs => RE.alt r (rgroup rs)

def bword (s : String) : RE := rseq [RE.wb, rstr s, RE.wb]

/-- Pattern `\bstem[suffix]?\b`, e.g. `\bseems?\b`. -/
def bwordOpt (stem : String) (suffix : String) : RE :=
  rseq [RE.wb, rstr stem, RE.opt (rstr suffix), RE.wb]

/-- Pattern `\bstem[cs]?\b`, e.g. `\bprove[sd]?\b`. -/
def bwordOptCls (stem : String) (cs : List Char) : RE :=
  rseq [RE.wb, rstr stem, RE.opt (RE.cls (CC.chars cs)), RE.wb]

def dplus : RE := RE.seq (RE.cls CC.digit) (RE.starCls CC.digit)

def dstar : RE := RE.starCls CC.digit

def splus : RE := RE.seq (RE.cls CC.space) (RE.starCls CC.space)

def sstar : RE := RE.starCls CC.space

/-! Section: Pattern library (`statistical_checks.py`, module level)

Each entry is annotated with the Python regex it embeds.  Patterns are
written lower-case; every search in the source either runs on an already
lower-cased haystack or passes `re.IGNORECASE`, which the embedding models
by lower-casing the haystack. -/

def HEDGE_WORDS : List RE := [
  bword "might",                 -- \bmight\b
  bword "may",                   -- \bmay\b
  bword "could",                 -- \bcould\b
  bword "possibly",              -- \bpossibly\b
  bword "perhaps",               -- \bperhaps\b
  bword "probably",              -- \bprobably\b
  bword "likely",                -- \blikely\b
  bwordOpt "seem" "s",           -- \bseems?\b
  bwordOpt "appear" "s",         -- \bappears?\b
  bwordOpt "suggest" "s",        -- \bsuggests?\b
  bwordOpt "tend" "s",           -- \btends?\b
  bword "often",                 -- \boften\b
  bword "sometimes",             -- \bsometimes\b
  bword "generally"]             -- \bgenerally\b

def EXTREME_WORDS : List RE := [
  bwordOptCls "prove" ['s', 'd'],     -- \bprove[sd]?\b
  bword "always",                     -- \balways\b
  bword "never",                      -- \bnever\b
  bword "impossible",                 -- \bimpossible\b
  bword "certainly",                  -- \bcertainly\b
  bword "definitely",                 -- \bdefinitely\b
  bword "clearly",                    -- \bclearly\b
  bword "obviously",                  -- \bobviously\b
  bword "undoubtedly",                -- \bundoubtedly\b
  bword "all",                        -- \ball\b
  bword "none",                       -- \bnone\b
  bword "every",                      -- \bevery\b
  bword "no",                         -- \bno\b
  bwordOptCls "cure" ['s', 'd'],      -- \bcure[sd]?\b
  bword "will",                       -- \bwill\b
  bwordOptCls "guarantee" ['s', 'd'], -- \bguarantee[sd]?\b
  bword "certain",                    -- \bcertain\b
  bword "zero risk",                  -- \bzero risk\b
  bword "must",                       -- \bmust\b
  rseq [RE.wb, rstr "can", RE.opt (RE.lit '\''), rstr "t", RE.wb],  -- \bcan\'?t\b
  rseq [RE.wb, rstr "won", RE.opt (RE.lit '\''), rstr "t", RE.wb],  -- \bwon\'?t\b
  bwordOpt "eliminate" "s",           -- \beliminates?\b
  bwordOpt "ensure" "s",              -- \bensures?\b
  bword "100%",                       -- \b100%\b
  bword "completely",                 -- \bcompletely\b
  bword "entirely",                   -- \bentirely\b
  bword "absolutely",                 -- \babsolutely\b
  bword "totally"]                    -- \btotally\b

def CAUSATION_WORDS : List RE := [
  bwordOpt "cause" "s",          -- \bcauses?\b
  bword "caused by",             -- \bcaused by\b
  rseq [RE.wb, rstr "lead", RE.opt (rstr "s"), rstr " to", RE.wb],    -- \bleads? to\b
  rseq [RE.wb, rstr "result", RE.opt (rstr "s"), rstr " in", RE.wb],  -- \bresults? in\b
  bwordOpt "make" "s",           -- \bmakes?\b
  bwordOpt "force" "s",          -- \bforces?\b
  bwordOpt "produce" "s",        -- \bproduces?\b
  bwordOpt "create" "s",         -- \bcreates?\b
  bword "due to",                -- \bdue to\b
  bword "because of",            -- \bbecause of\b
  bword "therefore",             -- \btherefore\b
  bword "thus",                  -- \bthus\b
  bwordOpt "increase" "s",       -- \bincreases?\b
  bwordOpt "decrease" "s",       -- \bdecreases?\b
  bwordOpt "improve" "s",        -- \bimproves?\b
  bwordOpt "worsen" "s",         -- \bworsens?\b
  bwordOpt "cure" "s",           -- \bcures?\b
  bwordOpt "boost" "s",          -- \bboosts?\b
  bwordOpt "reduce" "s",         -- \breduces?\b
  bwordOpt "raise" "s",          -- \braises?\b
  bwordOpt "lower" "s",          -- \blowers?\b
  bwordOpt "enhance" "s",        -- \benhances?\b
  bwordOpt "prevent" "s",        -- \bprevents?\b
  bwordOpt "trigger" "s",        -- \btriggers?\b
  bwordOpt "enable" "s",         -- \benables?\b
  bwordOpt "disable" "s"]        -- \bdisables?\b

def SAMPLE_SIZE_PATTERNS : List RE := [
  -- \bn\s*=\s*\d+
  rseq [RE.wb, rstr "n", sstar, RE.lit '=', sstar, dplus],
  -- \bsample size[:\s]+\d+
  rseq [RE.wb, rstr "sample size",
        RE.seq (RE.cls (CC.union (CC.chars [':']) CC.space))
               (RE.starCls (CC.union (CC.chars [':']) CC.space)),
        dplus],
  -- \b\d+\s+participants?\b
  rseq [RE.wb, dplus, splus, rstr "participant", RE.opt (rstr "s"), RE.wb],
  -- \b\d+\s+subjects?\b
  rseq [RE.wb, dplus, splus, rstr "subject", RE.opt (rstr "s"), RE.wb],
  -- \b\d+\s+respondents?\b
  rseq [RE.wb, dplus, splus, rstr "respondent", RE.opt (rstr "s"), RE.wb],
  -- \b\d+\s+people\b
  rseq [RE.wb, dplus, splus, rstr "people", RE.wb],
  -- \bN\s*=\s*\d+ (identical to the first entry once lower-cased)
  rseq [RE.wb, rstr "n", sstar, RE.lit '=', sstar, dplus]]

def NUMBER_PATTERNS : List RE := [
  -- \b\d+\.?\d*%
  rseq [RE.wb, dplus, RE.opt (RE.lit '.'), dstar, RE.lit '%'],
  -- \b\d+\.?\d*x\b
  rseq [RE.wb, dplus, RE.opt (RE.lit '.'), dstar, rstr "x", RE.wb],
  -- \b\d+\.?\d*\s*times\b
  rseq [RE.wb, dplus, RE.opt (RE.lit '.'), dstar, sstar, rstr "times", RE.wb],
  -- \b\d+\s*percent
  rseq [RE.wb, dplus, sstar, rstr "percent"],
  -- \$\d+
  rseq [RE.lit '$', dplus],
  -- \b\d+\.?\d*\s*(million|billion|thousand)\b
  rseq [RE.wb, dplus, RE.opt (RE.lit '.'), dstar, sstar,
        rgroup [rstr "million", rstr "billion", rstr "thousand"], RE.wb]]

def RISK_MULTIPLIER_PATTERNS : List RE := [
  -- \bdoubl(e|es|ed|ing)\b
  rseq [RE.wb, rstr "doubl",
        rgroup [rstr "e", rstr "es", rstr "ed", rstr "ing"], RE.wb],
  -- \btripl(e|es|ed|ing)\b
  rseq [RE.wb, rstr "tripl",
        rgroup [rstr "e", rstr "es", rstr "ed", rstr "ing"], RE.wb],
  -- \b\d+x\s+(higher|more|greater|increased)
  rseq [RE.wb, dplus, rstr "x", splus,
        rgroup [rstr "higher", rstr "more", rstr "greater", rstr "increased"]],
  -- \b\d+\s+times\s+(higher|more|greater|as likely)
  rseq [RE.wb, dplus, splus, rstr "times", splus,
        rgroup [rstr "higher", rstr "more", rstr "greater", rstr "as likely"]],
  -- \b\d+%\s+increase
  rseq [RE.wb, dplus, RE.lit '%', splus, rstr "increase"],
  -- \b\d+00%\b (e.g., 200%, 300%)
  rseq [RE.wb, dplus, rstr "00%", RE.wb]]

def RISK_WORDS : List RE := [
  bword "risk",                  -- \brisk\b
  bword "chance",                -- \bchance\b
  bword "likely",                -- \blikely\b
  bword "likelihood",            -- \blikelihood\b
  bword "probability",           -- \bprobability\b
  bword "odds",                  -- \bodds\b
  bword "more likely",           -- \bmore likely\b
  bword "hazard"]                -- \bhazard\b

def EFFECT_WORDS : List RE := [
  bwordOpt "improve" "d",        -- \bimproved?\b
  bwordOpt "reduce" "d",         -- \breduced?\b
  bwordOpt "increase" "d",       -- \bincreased?\b
  bwordOpt "decrease" "d",       -- \bdecreased?\b
  bword "better",                -- \bbetter\b
  bword "worse",                 -- \bworse\b
  bword "more effective",        -- \bmore effective\b
  bword "less effective",        -- \bless effective\b
  bword "superior",              -- \bsuperior\b
  bword "inferior",              -- \binferior\b
  bwordOpt "enhance" "d",        -- \benhanced?\b
  bword "worked",                -- \bworked\b
  bword "helped",                -- \bhelped\b
  bword "benefited",             -- \bbenefited\b
  bword "boosted",               -- \bboosted\b
  bwordOpt "regulate" "s",       -- \bregulates?\b
  bwordOpt "fight" "s",          -- \bfights?\b
  bwordOpt "block" "s",          -- \bblocks?\b
  bwordOpt "stop" "s",           -- \bstops?\b
  bwordOpt "prevent" "s",        -- \bprevents?\b
  bwordOpt "cure" "s"]           -- \bcures?\b

def COMPARATOR_WORDS : List RE := [
  bword "than",                  -- \bthan\b
  rseq [RE.wb, rstr "vs", RE.opt (RE.lit '.'), RE.wb],  -- \bvs\.?\b
  bword "versus",                -- \bversus\b
  bword "compared to",           -- \bcompared to\b
  bword "compared with",         -- \bcompared with\b
  bword "relative to",           -- \brelative to\b
  bword "against",               -- \bagainst\b
  bword "control group",         -- \bcontrol group\b
  bword "placebo",               -- \bplacebo\b
  bword "baseline",              -- \bbaseline\b
  bword "control",               -- \bcontrol\b
  bword "comparison group"]      -- \bcomparison group\b

/-! Section: Schemas (`src/nuance/schemas.py`) -/

inductive Severity where
  | low | medium | high | critical
deriving DecidableEq, BEq

inductive ClaimType where
  | statistical | causal | comparative | absolute
deriving DecidableEq, BEq

/-- Schema `Claim` from `schemas.py`.  Confidence is a rational standing for the
Python float; the rule evaluators read only `quote` and
`numerical_values`. -/
structure Claim where
  claim_id : String
  quote : String
  claim_type : ClaimType
  confidence : ℚ
  variable_list : List String   -- `variables` in the source; renamed, keyword in Lean
  numerical_values : List String
deriving DecidableEq

/-- Schema `StatisticalCheck` from `schemas.py`. -/
structure StatisticalCheck where
  check_name : String
  passed : Bool
  severity : Severity
  explanation : String
  suggestion : Option String
deriving DecidableEq

inductive AuditStatus where
  | clean | minor_issues | major_issues | critical
deriving DecidableEq, BEq

/-- Schema `ClaimAudit` from `schemas.py`. -/
structure ClaimAudit where
  claim_id : String
  claim_quote : String
  checks_performed : List StatisticalCheck
  overall_status : AuditStatus
deriving DecidableEq

/-- Schema `TextMetrics` from `schemas.py`; float scores become rationals. -/
structure TextMetrics where
  data_density_score : ℚ
  vagueness_score : ℚ
  extreme_language_count : Nat
  sample_size_mentioned : Bool
  causation_language_count : Nat
deriving DecidableEq

/-! Section: Python string helpers -/

/-- Python `str.lower()` composed with viewing the string as a character list
(ASCII, which is all the repository's patterns address). -/
def lowerStr (s : String) : List Char := s.toList.map Char.toLower

/-- Python `str.strip()`: drop whitespace from both ends. -/
def pyStrip (s : List Char) : List Char :=
  ((s.dropWhile isPySpace).reverse.dropWhile isPySpace).reverse

/-- Python's `sub in hay` substring test. -/
def strContains : List Char → List Char → Bool
  | hay, sub =>
    sub.isPrefixOf hay ||
      match hay with
      | [] => false
      | _ :: t => strContains t sub

/-- Python `str.split()` (no argument): split on whitespace runs, no empties. -/
def pyWordsAux : List Char → List Char → List (List Char)
  | [], acc => if acc.isEmpty then [] else [acc.reverse]
  | c :: cs, acc =>
    if isPySpace c then
      if acc.isEmpty then pyWordsAux cs []
      else acc.reverse :: pyWordsAux cs []
    else pyWordsAux cs (c :: acc)

def pyWords (s : List Char) : List (List Char) := pyWordsAux s []

def isTermPunct (c : Char) : Bool := c == '.' || c == '!' || c == '?'

theorem dropWhile_length_le {α : Type} (p : α → Bool) (l : List α) :
    (l.dropWhile p).length ≤ l.length := by
  induction l with
  | nil => simp
  | cons a t ih =>
    cases h : p a
    · simp [List.dropWhile_cons, h]
    · simp only [List.dropWhile_cons, h, if_pos, List.length_cons]
      omega

/-- Sentence split `re.split(r'[.!?]+', text)`: fields between maximal runs of terminal
punctuation. -/
def splitTermAux : List Char → List Char → List (List Char)
  | [], acc => [acc.reverse]
  | c :: cs, acc =>
    if isTermPunct c then
      acc.reverse :: splitTermAux (cs.dropWhile isTermPunct) []
    else
      splitTermAux cs (c :: acc)
termination_by l _ => l.length
decreasing_by
  · exact Nat.lt_succ_of_le (dropWhile_length_le _ _)
  · simp

def splitTerm (s : List Char) : List (List Char) := splitTermAux s []

/-! Section: Check-local regexes of `statistical_checks.py` -/

/-- Pattern `\d+\.?\d*`. -/
def dnum : RE := rseq [dplus, RE.opt (RE.lit '.'), dstar]

/-- Pattern `\brandomized\b|\bcontrolled trial\b|\bRCT\b|\bexperiment\b|\bintervention\b`
(searched with `re.IGNORECASE`, hence written lower-case). -/
def experimentalEvidenceRE : RE :=
  rgroup [bword "randomized", bword "controlled trial", bword "rct",
          bword "experiment", bword "intervention"]

/-- Pattern `\d+%|\d+\s*percent|\d+\.?\d*\s*times` (from `_check_sample_size`). -/
def sampleSizeNumbersRE : RE :=
  rgroup [rseq [dplus, RE.lit '%'],
          rseq [dplus, sstar, rstr "percent"],
          rseq [dnum, sstar, rstr "times"]]

/-- Pattern `\d+%|\d+\s*percent` (from `_check_base_rate`). -/
def baseRatePercentRE : RE :=
  rgroup [rseq [dplus, RE.lit '%'], rseq [dplus, sstar, rstr "percent"]]

/-- Pattern `increase[sd]?|decrease[sd]?|more|less|higher|lower|times`
(no word boundaries in the source). -/
def baseRateRelativeRE : RE :=
  rgroup [rseq [rstr "increase", RE.opt (RE.cls (CC.chars ['s', 'd']))],
          rseq [rstr "decrease", RE.opt (RE.cls (CC.chars ['s', 'd']))],
          rstr "more", rstr "less", rstr "higher", rstr "lower", rstr "times"]

/-- Pattern `\d+x\b` (from `_check_base_rate`). -/
def baseRateMultiplierRE : RE := rseq [dplus, rstr "x", RE.wb]

/-- Pattern `\bof\s+\d+|\bout of\s+\d+|from\s+\d+\s+to\s+\d+|n\s*=\s*\d+`
(from `_check_base_rate`). -/
def baseRateAbsoluteRE : RE :=
  rgroup [rseq [RE.wb, rstr "of", splus, dplus],
          rseq [RE.wb, rstr "out of", splus, dplus],
          rseq [rstr "from", splus, dplus, splus, rstr "to", splus, dplus],
          rseq [rstr "n", sstar, RE.lit '=', sstar, dplus]]

/-- Pattern `\bfrom\s+\d+\.?\d*%?\s+to\s+\d+\.?\d*%?|\bout of\s+\d+|\bof\s+\d+|`
`\bin\s+\d+|\b\d+\.?\d*%\s+to\s+\d+\.?\d*%|\babsolute risk`
(from `_check_relative_risk_without_context`). -/
def relativeRiskAbsoluteRE : RE :=
  rgroup [rseq [RE.wb, rstr "from", splus, dnum, RE.opt (RE.lit '%'),
                splus, rstr "to", splus, dnum, RE.opt (RE.lit '%')],
          rseq [RE.wb, rstr "out of", splus, dplus],
          rseq [RE.wb, rstr "of", splus, dplus],
          rseq [RE.wb, rstr "in", splus, dplus],
          rseq [RE.wb, dnum, RE.lit '%', splus, rstr "to", splus,
                dnum, RE.lit '%'],
          rseq [RE.wb, rstr "absolute risk"]]

/-- Pattern `\b(increase[ds]?|decrease[ds]?|reduced?|improved?|rose|fell|dropped|grew|enhanced?)\s+(by|from|to)\s+\d+|\bfrom\s+\d+.*?\bto\s+\d+`
(from `_check_missing_comparator`). -/
def implicitComparatorRE : RE :=
  RE.alt
    (rseq [RE.wb,
           rgroup [rseq [rstr "increase", RE.opt (RE.cls (CC.chars ['d', 's']))],
                   rseq [rstr "decrease", RE.opt (RE.cls (CC.chars ['d', 's']))],
                   rseq [rstr "reduce", RE.opt (RE.lit 'd')],
                   rseq [rstr "improve", RE.opt (RE.lit 'd')],
                   rstr "rose", rstr "fell", rstr "dropped", rstr "grew",
                   rseq [rstr "enhance", RE.opt (RE.lit 'd')]],
           splus, rgroup [rstr "by", rstr "from", rstr "to"], splus, dplus])
    (rseq [RE.wb, rstr "from", splus, dplus, RE.starClsLazy CC.anyChar,
           RE.wb, rstr "to", splus, dplus])

/-- Pattern `\bstudy\b|\bresearch\b|\btrial\b|\btest\b|\bparticipants?\b|\bsubjects?\b`
(from `_check_missing_comparator`). -/
def researchContextRE : RE :=
  rgroup [bword "study", bword "research", bword "trial", bword "test",
          bwordOpt "participant" "s", bwordOpt "subject" "s"]

/-! Section: `StatisticalAnalyzer` -/

structure StatisticalAnalyzer where
  text : String
  sentences : List (List Char)

/-- Method `_split_sentences`: split on `[.!?]+`, strip each fragment, keep the
non-empty ones. -/
def _split_sentences (text : String) : List (List Char) :=
  ((splitTerm text.toList).map pyStrip).filter (fun s => !s.isEmpty)

/-- Constructor `StatisticalAnalyzer.__init__`. -/
def StatisticalAnalyzer.ofText (text : String) : StatisticalAnalyzer :=
  { text := text, sentences := _split_sentences text }

/-- Method `_calculate_data_density`: fraction of sentences containing at least one
number pattern (searched with `re.IGNORECASE`). -/
def StatisticalAnalyzer._calculate_data_density (self : StatisticalAnalyzer) : ℚ :=
  if self.sentences.isEmpty then 0
  else
    let sentences_with_numbers := self.sentences.countP (fun sentence =>
      NUMBER_PATTERNS.any (fun p => reSearch p (sentence.map Char.toLower)))
    (sentences_with_numbers : ℚ) / (self.sentences.length : ℚ)

/-- Method `_calculate_vagueness_score`: hedge-word matches per word, scaled by 10
and capped at 1. -/
def StatisticalAnalyzer._calculate_vagueness_score (self : StatisticalAnalyzer) : ℚ :=
  let text_lower := lowerStr self.text
  let total_words := (pyWords self.text.toList).length
  if total_words == 0 then 0
  else
    let hedge_count := (HEDGE_WORDS.map (fun p => reCount p text_lower)).sum
    min 1 (((hedge_count : ℚ) / (total_words : ℚ)) * 10)

/-- Method `_count_extreme_language`: total `re.findall` matches over the whole
lower-cased text. -/
def StatisticalAnalyzer._count_extreme_language (self : StatisticalAnalyzer) : Nat :=
  (EXTREME_WORDS.map (fun p => reCount p (lowerStr self.text))).sum

/-- Method `_check_sample_size_mentioned` (searched with `re.IGNORECASE`). -/
def StatisticalAnalyzer._check_sample_size_mentioned (self : StatisticalAnalyzer) : Bool :=
  SAMPLE_SIZE_PATTERNS.any (fun p => reSearch p (lowerStr self.text))

/-- Method `_count_causation_language`. -/
def StatisticalAnalyzer._count_causation_language (self : StatisticalAnalyzer) : Nat :=
  (CAUSATION_WORDS.map (fun p => reCount p (lowerStr self.text))).sum

/-- Method `calculate_text_metrics`. -/
def StatisticalAnalyzer.calculate_text_metrics (self : StatisticalAnalyzer) : TextMetrics :=
  { data_density_score := self._calculate_data_density
    vagueness_score := self._calculate_vagueness_score
    extreme_language_count := self._count_extreme_language
    sample_size_mentioned := self._check_sample_size_mentioned
    causation_language_count := self._count_causation_language }

/-! Section: The seven claim rules.  Each takes `self` exactly as the Python
methods do; none of their bodies reads `self`. -/

/-- Rule 1: `_check_correlation_vs_causation`. -/
def StatisticalAnalyzer._check_correlation_vs_causation
    (_self : StatisticalAnalyzer) (claim : Claim) : StatisticalCheck :=
  let quote_lower := lowerStr claim.quote
  let has_causation_words := CAUSATION_WORDS.any (fun p => reSearch p quote_lower)
  let has_experimental_evidence := reSearch experimentalEvidenceRE quote_lower
  if has_causation_words && !has_experimental_evidence then
    { check_name := "Correlation vs Causation"
      passed := false
      severity := Severity.high
      explanation := "Claim uses causal language ('" ++ claim.quote ++
        "') but doesn't mention experimental evidence. Causal claims require randomized controlled trials or careful causal inference, not just correlation."
      suggestion := some "Either provide experimental evidence or rephrase using correlational language: 'associated with', 'correlated with', 'linked to'" }
  else
    { check_name := "Correlation vs Causation"
      passed := true
      severity := Severity.low
      explanation := "No inappropriate causal language detected."
      suggestion := none }

/-- Rule 2: `_check_sample_size`. -/
def StatisticalAnalyzer._check_sample_size
    (_self : StatisticalAnalyzer) (claim : Claim) : StatisticalCheck :=
  let quote_lower := lowerStr claim.quote
  let has_numbers := reSearch sampleSizeNumbersRE quote_lower
  if has_numbers || !claim.numerical_values.isEmpty then
    let has_sample_size :=
      SAMPLE_SIZE_PATTERNS.any (fun p => reSearch p quote_lower)
    if !has_sample_size then
      { check_name := "Sample Size Disclosure"
        passed := false
        severity := Severity.medium
        explanation := "Statistical claim '" ++ claim.quote ++
          "' provides numbers but doesn't mention sample size. Small samples can produce misleading statistics."
        suggestion := some "Include sample size: 'n=X' or 'based on X participants'" }
    else
      { check_name := "Sample Size Disclosure"
        passed := true
        severity := Severity.low
        explanation := "Sample size mentioned or not required for this claim type."
        suggestion := none }
  else
    { check_name := "Sample Size Disclosure"
      passed := true
      severity := Severity.low
      explanation := "Sample size mentioned or not required for this claim type."
      suggestion := none }

/-- The `matched_words` computed inside `_check_extreme_language_in_claim`:
for each matching extreme pattern, the text of its leftmost match. -/
def matchedExtremeWords (quote_lower : List Char) : List (List Char) :=
  (EXTREME_WORDS.filter (fun p => reSearch p quote_lower)).filterMap
    (fun p => reSearchMatch p none quote_lower)

/-- Rule 3: `_check_extreme_language_in_claim`.  Note the high/medium split
tests `word in quote_lower` — plain substring containment on the quote, not
membership in the matched words. -/
def StatisticalAnalyzer._check_extreme_language_in_claim
    (_self : StatisticalAnalyzer) (claim : Claim) : StatisticalCheck :=
  let quote_lower := lowerStr claim.quote
  let extreme_matches := EXTREME_WORDS.filter (fun p => reSearch p quote_lower)
  if !extreme_matches.isEmpty then
    let matched_words := matchedExtremeWords quote_lower
    { check_name := "Extreme Language"
      passed := false
      severity :=
        if ["will", "cure", "guarantee", "must"].any
            (fun word => strContains quote_lower word.toList)
        then Severity.high else Severity.medium
      explanation := "Claim uses absolute language: '" ++
        String.intercalate ", " ((matched_words.take 3).map String.mk) ++
        "'. Words like 'always', 'never', 'will', 'cure', 'guarantee' are rarely justified in science."
      suggestion := some "Use qualified language: 'often', 'may', 'suggests', 'can help', 'associated with'" }
  else
    { check_name := "Extreme Language"
      passed := true
      severity := Severity.low
      explanation := "No problematic absolute language detected."
      suggestion := none }

/-- Rule 4: `_check_base_rate`. -/
def StatisticalAnalyzer._check_base_rate
    (_self : StatisticalAnalyzer) (claim : Claim) : StatisticalCheck :=
  let quote_lower := lowerStr claim.quote
  let has_percentage := reSearch baseRatePercentRE quote_lower
  let has_relative := reSearch baseRateRelativeRE quote_lower
  let has_multiplier := reSearch baseRateMultiplierRE quote_lower
  if has_percentage || has_relative || has_multiplier then
    let has_absolute := reSearch baseRateAbsoluteRE quote_lower
    if !has_absolute then
      { check_name := "Base Rate Neglect"
        passed := false
        severity := Severity.medium
        explanation := "Claim provides relative statistics without absolute context. '50% increase' or '200%' means different things if starting from 2 vs 2000."
        suggestion := some "Include absolute numbers: '50% increase (from 100 to 150)' or baseline context" }
    else
      { check_name := "Base Rate Neglect"
        passed := true
        severity := Severity.low
        explanation := "Base rates provided or not applicable."
        suggestion := none }
  else
    { check_name := "Base Rate Neglect"
      passed := true
      severity := Severity.low
      explanation := "Base rates provided or not applicable."
      suggestion := none }

/-- Rule 5: `_check_data_support`. -/
def StatisticalAnalyzer._check_data_support
    (_self : StatisticalAnalyzer) (claim : Claim) : StatisticalCheck :=
  let quote_lower := lowerStr claim.quote
  let quant_keywords : List String :=
    ["significant", "substantial", "large", "small", "majority",
     "minority", "most", "few", "many", "rare", "common"]
  let has_quant_keyword :=
    quant_keywords.any (fun keyword => strContains quote_lower keyword.toList)
  if has_quant_keyword && claim.numerical_values.isEmpty then
    { check_name := "Data Support"
      passed := false
      severity := Severity.medium
      explanation := "Claim uses quantitative language ('" ++ claim.quote ++
        "') but provides no actual numbers. Terms like 'significant' or 'most' should be backed by data."
      suggestion := some "Replace vague terms with specific percentages or counts" }
  else
    { check_name := "Data Support"
      passed := true
      severity := Severity.low
      explanation := "Claims are appropriately supported with data or don't require it."
      suggestion := none }

/-- Rule 6: `_check_relative_risk_without_context`. -/
def StatisticalAnalyzer._check_relative_risk_without_context
    (_self : StatisticalAnalyzer) (claim : Claim) : StatisticalCheck :=
  let quote_lower := lowerStr claim.quote
  let has_risk_multiplier :=
    RISK_MULTIPLIER_PATTERNS.any (fun p => reSearch p quote_lower)
  let has_risk_word := RISK_WORDS.any (fun p => reSearch p quote_lower)
  if has_risk_multiplier && has_risk_word then
    let has_absolute := reSearch relativeRiskAbsoluteRE quote_lower
    if !has_absolute then
      { check_name := "Relative Risk Without Context"
        passed := false
        severity := Severity.high
        explanation := "Claim uses alarming relative risk language ('" ++
          claim.quote ++
          "') without providing absolute numbers. 'Doubles your risk' sounds scary, but doubling from 0.001% to 0.002% is very different from 10% to 20%."
        suggestion := some "Include absolute risk: 'increased from 0.5% to 1%' or 'affecting 2 in 10,000 people instead of 1 in 10,000'" }
    else
      { check_name := "Relative Risk Without Context"
        passed := true
        severity := Severity.low
        explanation := "Relative risk properly contextualized or not applicable."
        suggestion := none }
  else
    { check_name := "Relative Risk Without Context"
      passed := true
      severity := Severity.low
      explanation := "Relative risk properly contextualized or not applicable."
      suggestion := none }

/-- Rule 7: `_check_missing_comparator`. -/
def StatisticalAnalyzer._check_missing_comparator
    (_self : StatisticalAnalyzer) (claim : Claim) : StatisticalCheck :=
  let quote_lower := lowerStr claim.quote
  let has_effect_claim := EFFECT_WORDS.any (fun p => reSearch p quote_lower)
  if has_effect_claim then
    let has_comparator := COMPARATOR_WORDS.any (fun p => reSearch p quote_lower)
    let has_implicit_comparator := reSearch implicitComparatorRE quote_lower
    if !has_comparator && !has_implicit_comparator then
      let is_research_claim := reSearch researchContextRE quote_lower
      let severity := if is_research_claim then Severity.high else Severity.medium
      { check_name := "Missing Comparator"
        passed := false
        severity := severity
        explanation := "Claim states that something '" ++ claim.quote ++
          "' but doesn't specify compared to what. Improved vs. placebo? Control group? Previous version? Doing nothing? Without a comparison point, the claim is meaningless."
        suggestion := some "Specify the comparison: 'improved compared to placebo', 'better than standard treatment', 'reduced vs. baseline'" }
    else
      { check_name := "Missing Comparator"
        passed := true
        severity := Severity.low
        explanation := "Comparisons are properly specified or not required."
        suggestion := none }
  else
    { check_name := "Missing Comparator"
      passed := true
      severity := Severity.low
      explanation := "Comparisons are properly specified or not required."
      suggestion := none }

/-- Method `check_claim`: the seven rules in fixed order. -/
def StatisticalAnalyzer.check_claim
    (self : StatisticalAnalyzer) (claim : Claim) : List StatisticalCheck :=
  [self._check_correlation_vs_causation claim,
   self._check_sample_size claim,
   self._check_extreme_language_in_claim claim,
   self._check_base_rate claim,
   self._check_data_support claim,
   self._check_relative_risk_without_context claim,
   self._check_missing_comparator claim]

/-! Section: Aggregation (`app.py`) -/

/-- The overall-status derivation inlined in `run_standard_analysis`
(`app.py`, lines 326–337). -/
def deriveOverallStatus (checks : List StatisticalCheck) : AuditStatus :=
  let failed_checks := checks.filter (fun c => !c.passed)
  if failed_checks.any (fun c => c.severity == Severity.critical) then
    AuditStatus.critical
  else if failed_checks.any (fun c => c.severity == Severity.high) then
    AuditStatus.major_issues
  else if !failed_checks.isEmpty then
    AuditStatus.minor_issues
  else
    AuditStatus.clean

/-- Expression `sum(len(audit.checks_performed) for audit in claim_audits)`. -/
def totalChecks (claim_audits : List ClaimAudit) : Nat :=
  (claim_audits.map (fun audit => audit.checks_performed.length)).sum

/-- Expression `sum(len([c for c in audit.checks_performed if not c.passed]) ...)`. -/
def failedChecks (claim_audits : List ClaimAudit) : Nat :=
  (claim_audits.map (fun audit =>
    (audit.checks_performed.filter (fun c => !c.passed)).length)).sum

/-- Function `calculate_reliability_score` (`app.py`, lines 729–767), floats as
rationals.  The successive `score` rebindings mirror the Python mutations. -/
def calculate_reliability_score
    (text_metrics : TextMetrics) (claim_audits : List ClaimAudit) : ℚ :=
  let score : ℚ := 50
  let score := score + text_metrics.data_density_score * 20
  let score := score - text_metrics.vagueness_score * 15
  let score := if text_metrics.sample_size_mentioned then score + 10 else score
  let score := score - min ((text_metrics.extreme_language_count : ℚ) * 2) 15
  let total_checks := totalChecks claim_audits
  let failed_checks := failedChecks claim_audits
  let score :=
    if total_checks > 0 then
      let failure_rate : ℚ := (failed_checks : ℚ) / (total_checks : ℚ)
      score - failure_rate * 30
    else score
  max 0 (min 100 score)

/-! Section: Retry loop (`src/nuance/retry.py`)

The Anthropic client call is an oracle `gen : List Msg → String` from the
conversation so far to the response text; `json.loads` plus
`schema_class.model_validate` (both external libraries) are an oracle
`parseValidate : String → Except GenError T`.  The fence-stripping block
inlined in `validate_with_retry` (lines 72–81) is repository code and is
embedded faithfully, including Python's slicing behaviour when a closing
fence is missing (`find` returns `-1`). -/

structure Msg where
  role : String
  content : String
deriving DecidableEq

/-- Which exception `except (json.JSONDecodeError, ValidationError)`
caught, with its `str(e)`. -/
inductive GenError where
  | jsonDecode (msg : String)
  | validation (msg : String)
deriving DecidableEq

/-- Expression `"JSON parsing" if isinstance(e, json.JSONDecodeError) else "Schema validation"`. -/
def errorTypeName : GenError → String
  | .jsonDecode _ => "JSON parsing"
  | .validation _ => "Schema validation"

/-- Expression `str(e)`. -/
def genErrorStr : GenError → String
  | .jsonDecode m => m
  | .validation m => m

/-- Python `str.find(sub)` scanning for the first occurrence. -/
def strFindAux (needle : List Char) : List Char → Nat → Option Nat
  | [], i => if needle.isEmpty then some i else none
  | h :: t, i =>
    if needle.isPrefixOf (h :: t) then some i else strFindAux needle t (i + 1)

def pyFind (hay needle : List Char) : Int :=
  match strFindAux needle hay 0 with
  | some i => (i : Int)
  | none => -1

/-- Python `str.find(sub, start)` with `start ≥ 0`. -/
def pyFindFrom (hay needle : List Char) (start : Int) : Int :=
  match strFindAux needle (hay.drop start.toNat) 0 with
  | some i => (i : Int) + start
  | none => -1

/-- Python slice `s[a:b]` for int indices (negative = from the end). -/
def pySlice (s : List Char) (a b : Int) : List Char :=
  let n : Int := s.length
  let clampIdx := fun (i : Int) => if i < 0 then max 0 (n + i) else min i n
  (s.take (clampIdx b).toNat).drop (clampIdx a).toNat

/-- Lines 72–81 of `retry.py`: pull the JSON payload out of a possibly
code-fenced response. -/
def inlineExtractJson (response_text : List Char) : List Char :=
  if strContains response_text "```json".toList then
    let json_start := pyFind response_text "```json".toList + 7
    let json_end := pyFindFrom response_text "```".toList json_start
    pyStrip (pySlice response_text json_start json_end)
  else if strContains response_text "```".toList then
    let json_start := pyFind response_text "```".toList + 3
    let json_end := pyFindFrom response_text "```".toList json_start
    pyStrip (pySlice response_text json_start json_end)
  else
    pyStrip response_text

/-- One attempt's parse-and-validate outcome at a given conversation
state: generate, strip fences, parse, validate. -/
def attemptResult {T : Type} (gen : List Msg → String)
    (parseValidate : String → Except GenError T) (messages : List Msg) :
    Except GenError T :=
  parseValidate (String.mk (inlineExtractJson (gen messages).toList))

/-- The error-feedback message built on a failed attempt (the f-string in
lines 98–112 with its interpolations filled in). -/
def retryErrorMessage (e : GenError) (schema_name : String) : String :=
  "\n" ++ errorTypeName e ++
  " error occurred. Please fix the JSON and try again.\n\nError details:\n" ++
  genErrorStr e ++
  "\n\nRequirements:\n1. Your response must be valid JSON\n2. It must match this schema exactly: " ++
  schema_name ++
  "\n3. Check all required fields are present\n4. Ensure all field types are correct (strings, numbers, booleans, etc.)\n5. Validate that numeric fields are in the correct ranges\n\nPlease output ONLY the corrected JSON, with no additional text or explanation.\n"

/-- The `RetryExhaustedError` message (lines 121–124). -/
def retryExhaustedMessage (schema_name : String) (max_retries : Nat)
    (e : GenError) : String :=
  "Failed to get valid " ++ schema_name ++ " after " ++
  toString (max_retries + 1) ++ " attempts. Last error: " ++ genErrorStr e

/-- The messages appended after a failed attempt (lines 114–117). -/
def failureFeedback (response_text : String) (e : GenError)
    (schema_name : String) : List Msg :=
  [{ role := "assistant", content := response_text },
   { role := "user", content := retryErrorMessage e schema_name }]

/-- The `for attempt in range(max_retries + 1)` loop body, recursing on
`remaining = max_retries - attempt`.  `remaining = 0` is the last pass
(`attempt == max_retries`), where a failure raises `RetryExhaustedError`.
The first component counts how many generation attempts were issued. -/
def validateWithRetryGo {T : Type} (gen : List Msg → String)
    (parseValidate : String → Except GenError T) (schema_name : String)
    (max_retries : Nat) : Nat → List Msg → Nat × Except String T
  | 0, messages =>
    let response_text := gen messages
    match parseValidate (String.mk (inlineExtractJson response_text.toList)) with
    | .ok validated_data => (1, .ok validated_data)
    | .error e => (1, .error (retryExhaustedMessage schema_name max_retries e))
  | r + 1, messages =>
    let response_text := gen messages
    match parseValidate (String.mk (inlineExtractJson response_text.toList)) with
    | .ok validated_data => (1, .ok validated_data)
    | .error e =>
      let next := validateWithRetryGo gen parseValidate schema_name max_retries
        r (messages ++ failureFeedback response_text e schema_name)
      (next.1 + 1, next.2)

/-- Function `validate_with_retry` (the source defaults `max_retries` to 3). -/
def validate_with_retry {T : Type} (gen : List Msg → String)
    (parseValidate : String → Except GenError T) (schema_name : String)
    (max_retries : Nat) (initial_messages : List Msg) :
    Nat × Except String T :=
  validateWithRetryGo gen parseValidate schema_name max_retries
    max_retries initial_messages

/-- The conversation state just before attempt `k` (0-based), assuming the
first `k` attempts fail; used to state which attempt first succeeds. -/
def retryMessagesAt {T : Type} (gen : List Msg → String)
    (parseValidate : String → Except GenError T) (schema_name : String) :
    List Msg → Nat → List Msg
  | msgs, 0 => msgs
  | msgs, k + 1 =>
    let response_text := gen msgs
    match parseValidate (String.mk (inlineExtractJson response_text.toList)) with
    | .ok _ => msgs
    | .error e =>
      retryMessagesAt gen parseValidate schema_name
        (msgs ++ failureFeedback response_text e schema_name) k

/-! Section: Spec-level trigger predicates

Named after the local booleans the rule methods bind; the theorems below
state each rule's verdict in terms of these. -/

def hasCausalLanguage (q : List Char) : Bool :=
  CAUSATION_WORDS.any (fun p => reSearch p q)

def hasExperimentalEvidence (q : List Char) : Bool :=
  reSearch experimentalEvidenceRE q

def hasExtremeLanguage (q : List Char) : Bool :=
  EXTREME_WORDS.any (fun p => reSearch p q)

/-- Expression `any(word in quote_lower for word in ['will', 'cure', 'guarantee', 'must'])`:
plain substring containment on the lower-cased quote. -/
def highImpactSubstring (q : List Char) : Bool :=
  ["will", "cure", "guarantee", "must"].any (fun word => strContains q word.toList)

def hasEffectWord (q : List Char) : Bool :=
  EFFECT_WORDS.any (fun p => reSearch p q)

def hasComparatorWord (q : List Char) : Bool :=
  COMPARATOR_WORDS.any (fun p => reSearch p q)

def hasImplicitComparator (q : List Char) : Bool :=
  reSearch implicitComparatorRE q

def hasResearchContext (q : List Char) : Bool :=
  reSearch researchContextRE q

def hasRiskMultiplier (q : List Char) : Bool :=
  RISK_MULTIPLIER_PATTERNS.any (fun p => reSearch p q)

def hasRiskWord (q : List Char) : Bool :=
  RISK_WORDS.any (fun p => reSearch p q)

def hasAbsoluteRiskContext (q : List Char) : Bool :=
  reSearch relativeRiskAbsoluteRE q

/-- A claim with the given quote, as the extraction layer would build it;
the rule evaluators read only the quote (and `numerical_values`, left
empty here). -/
def specClaim (q : String) : Claim :=
  { claim_id := "c1", quote := q, claim_type := ClaimType.statistical,
    confidence := 1, variable_list := [], numerical_values := [] }

/-- An arbitrary analyzer for evaluating the per-claim rules (whose verdicts
do not depend on the analyzer text). -/
def exampleAnalyzer : StatisticalAnalyzer := StatisticalAnalyzer.ofText ""

/-! Section: Claim theorems -/

/-- Claim C4.  The Correlation-vs-Causation rule fails with severity high iff
the quote matches a causal-relation pattern and contains no
experimental-evidence marker (randomized, controlled trial, RCT,
experiment, intervention); in particular "Coffee drinking causes longevity"
fails with severity high. -/
theorem correlation_vs_causation_rule_spec :
    (∀ (a : StatisticalAnalyzer) (c : Claim),
      ((a._check_correlation_vs_causation c).passed = false ↔
        (hasCausalLanguage (lowerStr c.quote) = true ∧
         hasExperimentalEvidence (lowerStr c.quote) = false)) ∧
      ((a._check_correlation_vs_causation c).passed = false →
        (a._check_correlation_vs_causation c).severity = Severity.high)) ∧
    ((exampleAnalyzer._check_correlation_vs_causation
        (specClaim "Coffee drinking causes longevity")).passed = false ∧
     (exampleAnalyzer._check_correlation_vs_causation
        (specClaim "Coffee drinking causes longevity")).severity =
       Severity.high) := by
  constructor
  · intro a c
    simp only [StatisticalAnalyzer._check_correlation_vs_causation,
      hasCausalLanguage, hasExperimentalEvidence]
    cases h1 : CAUSATION_WORDS.any (fun p => reSearch p (lowerStr c.quote)) <;>
      cases h2 : reSearch experimentalEvidenceRE (lowerStr c.quote) <;>
        simp [h1, h2]
  · constructor
    · decide
    · decide

/-- Witness for C4: the rule theorem applied at the coffee example,
discharging the pass/fail hypothesis by evaluation. -/
theorem correlation_vs_causation_rule_spec_witness :
    (exampleAnalyzer._check_correlation_vs_causation
        (specClaim "Coffee drinking causes longevity")).severity =
      Severity.high :=
  (correlation_vs_causation_rule_spec.1 exampleAnalyzer
    (specClaim "Coffee drinking causes longevity")).2 (by decide)

/-- Claim C3.  The Relative-Risk-Without-Context rule fails — always with
severity high — exactly when the quote contains both a risk-multiplier
pattern and a risk-noun word and no absolute-risk-context pattern.  The
smokers example fails with severity high; the "from 0.5% to 1%" example
passes. -/
theorem relative_risk_rule_spec :
    (∀ (a : StatisticalAnalyzer) (c : Claim),
      ((a._check_relative_risk_without_context c).passed = false ↔
        (hasRiskMultiplier (lowerStr c.quote) = true ∧
         hasRiskWord (lowerStr c.quote) = true ∧
         hasAbsoluteRiskContext (lowerStr c.quote) = false)) ∧
      ((a._check_relative_risk_without_context c).passed = false →
        (a._check_relative_risk_without_context c).severity = Severity.high)) ∧
    ((exampleAnalyzer._check_relative_risk_without_context
        (specClaim "Smokers are 3x more likely to develop cancer")).passed = false ∧
     (exampleAnalyzer._check_relative_risk_without_context
        (specClaim "Smokers are 3x more likely to develop cancer")).severity =
       Severity.high) ∧
    (exampleAnalyzer._check_relative_risk_without_context
        (specClaim "Risk increased from 0.5% to 1% in the treatment group")).passed =
      true := by
  refine ⟨?_, ⟨by decide, by decide⟩, by decide⟩
  intro a c
  simp only [StatisticalAnalyzer._check_relative_risk_without_context,
    hasRiskMultiplier, hasRiskWord, hasAbsoluteRiskContext]
  cases h1 : RISK_MULTIPLIER_PATTERNS.any (fun p => reSearch p (lowerStr c.quote)) <;>
    cases h2 : RISK_WORDS.any (fun p => reSearch p (lowerStr c.quote)) <;>
      cases h3 : reSearch relativeRiskAbsoluteRE (lowerStr c.quote) <;>
        simp [h1, h2, h3]

/-- Witness for C3: the rule theorem applied at the smokers example. -/
theorem relative_risk_rule_spec_witness :
    (exampleAnalyzer._check_relative_risk_without_context
        (specClaim "Smokers are 3x more likely to develop cancer")).severity =
      Severity.high :=
  (relative_risk_rule_spec.1 exampleAnalyzer
    (specClaim "Smokers are 3x more likely to develop cancer")).2 (by decide)

/-- Claim C2.  For a claim whose quote contains an effect/improvement word,
the Missing-Comparator rule fails iff the quote contains neither an
explicit comparator pattern nor an implicit comparator
(effect verb + by/from/to + number, or a "from N … to N" span); a failing
check's severity is high if a research-context marker is present, else
medium.  "The study
found that participants improved significantly" fails with severity high;
"Sales increased by 300%" passes. -/
theorem missing_comparator_rule_spec :
    (∀ (a : StatisticalAnalyzer) (c : Claim),
      hasEffectWord (lowerStr c.quote) = true →
      (((a._check_missing_comparator c).passed = false ↔
         ¬(hasComparatorWord (lowerStr c.quote) = true ∨
           hasImplicitComparator (lowerStr c.quote) = true)) ∧
       ((a._check_missing_comparator c).passed = false →
         (a._check_missing_comparator c).severity =
           (if hasResearchContext (lowerStr c.quote) then Severity.high
            else Severity.medium)))) ∧
    ((exampleAnalyzer._check_missing_comparator
        (specClaim "The study found that participants improved significantly")).passed = false ∧
     (exampleAnalyzer._check_missing_comparator
        (specClaim "The study found that participants improved significantly")).severity =
       Severity.high) ∧
    (exampleAnalyzer._check_missing_comparator
        (specClaim "Sales increased by 300%")).passed = true := by
  refine ⟨?_, ⟨by decide, by decide⟩, by decide⟩
  intro a c hEff
  simp only [StatisticalAnalyzer._check_missing_comparator,
    hasEffectWord, hasComparatorWord, hasImplicitComparator,
    hasResearchContext] at hEff ⊢
  rw [hEff]
  cases h1 : COMPARATOR_WORDS.any (fun p => reSearch p (lowerStr c.quote)) <;>
    cases h2 : reSearch implicitComparatorRE (lowerStr c.quote) <;>
      simp [h1, h2]

/-- Witness for C2: the gated part of the rule theorem applied at the
study example, discharging the effect-word gate and the failure hypothesis
by evaluation. -/
theorem missing_comparator_rule_spec_witness :
    (exampleAnalyzer._check_missing_comparator
        (specClaim "The study found that participants improved significantly")).severity =
      (if hasResearchContext
          (lowerStr (specClaim "The study found that participants improved significantly").quote)
       then Severity.high else Severity.medium) :=
  (missing_comparator_rule_spec.1 exampleAnalyzer
    (specClaim "The study found that participants improved significantly")
    (by decide)).2 (by decide)

/-- Claim C1, counterexample.  On the quote "Goodwill always helps" the only
matched extreme word is "always" — none of will/cure/guarantee/must is
among the matched words — yet the failing check's severity is high, because
the source tests `word in quote_lower` (substring containment: "goodwill"
contains "will"), not membership among the matched words.  Under the claim
as stated the severity would have to be medium. -/
theorem extreme_language_severity_counterexample :
    (exampleAnalyzer._check_extreme_language_in_claim
        (specClaim "Goodwill always helps")).passed = false ∧
    (matchedExtremeWords (lowerStr (specClaim "Goodwill always helps").quote)).map
        String.mk = ["always"] ∧
    (["will", "cure", "guarantee", "must"].all (fun w =>
      !((matchedExtremeWords
          (lowerStr (specClaim "Goodwill always helps").quote)).map
        String.mk).contains w)) = true ∧
    (exampleAnalyzer._check_extreme_language_in_claim
        (specClaim "Goodwill always helps")).severity = Severity.high ∧
    Severity.high ≠ Severity.medium := by
  refine ⟨by decide, by decide, by decide, by decide, by decide⟩

/-- Claim C1, amended.  The Extreme-Language rule fails iff some extreme-word
pattern matches in the quote; a failing check's severity is high iff one of
the four strings will/cure/guarantee/must occurs as a *substring* of the
lower-cased quote (regardless of word boundaries and of whether it is among
the matched extreme words), else medium. -/
theorem filter_isEmpty_eq_not_any {α : Type} (p : α → Bool) (l : List α) :
    (l.filter p).isEmpty = !l.any p := by
  induction l with
  | nil => simp
  | cons a t ih => cases h : p a <;> simp [List.filter_cons, h, ih]

theorem extreme_language_rule_amended :
    ∀ (a : StatisticalAnalyzer) (c : Claim),
      ((a._check_extreme_language_in_claim c).passed = false ↔
        hasExtremeLanguage (lowerStr c.quote) = true) ∧
      ((a._check_extreme_language_in_claim c).passed = false →
        (a._check_extreme_language_in_claim c).severity =
          (if highImpactSubstring (lowerStr c.quote) then Severity.high
           else Severity.medium)) := by
  intro a c
  have hfe := filter_isEmpty_eq_not_any
    (fun p => reSearch p (lowerStr c.quote)) EXTREME_WORDS
  simp only [StatisticalAnalyzer._check_extreme_language_in_claim,
    hasExtremeLanguage, highImpactSubstring]
  cases ha : EXTREME_WORDS.any (fun p => reSearch p (lowerStr c.quote)) <;>
    simp [hfe, ha]

/-- Witness for C1 (amended): the theorem applied at "This will cure
cancer", whose failing check is high via the substring test. -/
theorem extreme_language_rule_amended_witness :
    (exampleAnalyzer._check_extreme_language_in_claim
        (specClaim "This will cure cancer")).severity =
      (if highImpactSubstring (lowerStr (specClaim "This will cure cancer").quote)
       then Severity.high else Severity.medium) :=
  (extreme_language_rule_amended exampleAnalyzer
    (specClaim "This will cure cancer")).2 (by decide)

theorem any_true_isEmpty_false {α : Type} (p : α → Bool) (l : List α)
    (h : l.any p = true) : l.isEmpty = false := by
  cases l <;> simp_all

theorem severity_beq_iff (a b : Severity) : (a == b) = true ↔ a = b := by
  cases a <;> cases b <;> decide

/-- Claim C6.  The derived overall status is a pure function of the check
list with the tie-break order: critical if any failed check has severity
critical; else major_issues if any failed check has severity high; else
minor_issues if any check failed; else clean. -/
theorem overall_status_tiebreak :
    ∀ (checks : List StatisticalCheck),
      (deriveOverallStatus checks = AuditStatus.critical ↔
        ∃ c ∈ checks, c.passed = false ∧ c.severity = Severity.critical) ∧
      (deriveOverallStatus checks = AuditStatus.major_issues ↔
        (¬(∃ c ∈ checks, c.passed = false ∧ c.severity = Severity.critical) ∧
         ∃ c ∈ checks, c.passed = false ∧ c.severity = Severity.high)) ∧
      (deriveOverallStatus checks = AuditStatus.minor_issues ↔
        (¬(∃ c ∈ checks, c.passed = false ∧ c.severity = Severity.critical) ∧
         ¬(∃ c ∈ checks, c.passed = false ∧ c.severity = Severity.high) ∧
         ∃ c ∈ checks, c.passed = false)) ∧
      (deriveOverallStatus checks = AuditStatus.clean ↔
        ∀ c ∈ checks, c.passed = true) := by
  intro checks
  have hcrit : ((checks.filter fun c => !c.passed).any
      fun c => c.severity == Severity.critical) = true ↔
      ∃ c ∈ checks, c.passed = false ∧ c.severity = Severity.critical := by
    simp [List.any_eq_true, List.mem_filter, and_assoc, severity_beq_iff]
  have hhigh : ((checks.filter fun c => !c.passed).any
      fun c => c.severity == Severity.high) = true ↔
      ∃ c ∈ checks, c.passed = false ∧ c.severity = Severity.high := by
    simp [List.any_eq_true, List.mem_filter, and_assoc, severity_beq_iff]
  have hfail : ((checks.filter fun c => !c.passed).isEmpty = false) ↔
      ∃ c ∈ checks, c.passed = false := by
    rw [List.isEmpty_eq_false_iff_exists_mem]
    simp [List.mem_filter]
  have hclean : ((checks.filter fun c => !c.passed).isEmpty = true) ↔
      ∀ c ∈ checks, c.passed = true := by
    simp [List.isEmpty_iff, List.filter_eq_nil_iff]
  rw [← hcrit, ← hhigh, ← hfail, ← hclean]
  cases h3 : (checks.filter fun c => !c.passed).isEmpty
  · cases h1 : (checks.filter fun c => !c.passed).any
        (fun c => c.severity == Severity.critical) <;>
      cases h2 : (checks.filter fun c => !c.passed).any
          (fun c => c.severity == Severity.high) <;>
        simp [deriveOverallStatus, h1, h2, h3]
  · have hf : checks.filter (fun c => !c.passed) = [] := by
      simpa [List.isEmpty_iff] using h3
    simp [deriveOverallStatus, hf]

/-- Witness for C6: the tie-break theorem applied to a concrete one-element
check list with a failed high-severity check. -/
theorem overall_status_tiebreak_witness :
    deriveOverallStatus
      [{ check_name := "Extreme Language", passed := false,
         severity := Severity.high, explanation := "absolute language",
         suggestion := none }] = AuditStatus.major_issues :=
  (overall_status_tiebreak
    [{ check_name := "Extreme Language", passed := false,
       severity := Severity.high, explanation := "absolute language",
       suggestion := none }]).2.1.mpr (by decide)

/-- Claim C10.  The seven per-claim rule verdicts depend only on the claim,
never on the analyzer's document text: analyzers built from any two texts
produce identical check lists for every claim. -/
theorem check_claim_text_independent :
    ∀ (t1 t2 : String) (c : Claim),
      (StatisticalAnalyzer.ofText t1).check_claim c =
        (StatisticalAnalyzer.ofText t2).check_claim c :=
  fun _ _ _ => rfl

/-- Shape of one rule's verdict: fixed name, never critical, and a pass is
always severity low.  One such lemma per rule. -/
theorem corr_rule_shape (a : StatisticalAnalyzer) (c : Claim) :
    (a._check_correlation_vs_causation c).check_name = "Correlation vs Causation" ∧
    (a._check_correlation_vs_causation c).severity ≠ Severity.critical ∧
    ((a._check_correlation_vs_causation c).passed = true →
      (a._check_correlation_vs_causation c).severity = Severity.low) := by
  simp only [StatisticalAnalyzer._check_correlation_vs_causation]
  repeat' split
  all_goals simp

theorem sample_size_rule_shape (a : StatisticalAnalyzer) (c : Claim) :
    (a._check_sample_size c).check_name = "Sample Size Disclosure" ∧
    (a._check_sample_size c).severity ≠ Severity.critical ∧
    ((a._check_sample_size c).passed = true →
      (a._check_sample_size c).severity = Severity.low) := by
  simp only [StatisticalAnalyzer._check_sample_size]
  repeat' split
  all_goals simp

theorem extreme_rule_shape (a : StatisticalAnalyzer) (c : Claim) :
    (a._check_extreme_language_in_claim c).check_name = "Extreme Language" ∧
    (a._check_extreme_language_in_claim c).severity ≠ Severity.critical ∧
    ((a._check_extreme_language_in_claim c).passed = true →
      (a._check_extreme_language_in_claim c).severity = Severity.low) := by
  simp only [StatisticalAnalyzer._check_extreme_language_in_claim]
  repeat' split
  all_goals simp

theorem base_rate_rule_shape (a : StatisticalAnalyzer) (c : Claim) :
    (a._check_base_rate c).check_name = "Base Rate Neglect" ∧
    (a._check_base_rate c).severity ≠ Severity.critical ∧
    ((a._check_base_rate c).passed = true →
      (a._check_base_rate c).severity = Severity.low) := by
  simp only [StatisticalAnalyzer._check_base_rate]
  repeat' split
  all_goals simp

theorem data_support_rule_shape (a : StatisticalAnalyzer) (c : Claim) :
    (a._check_data_support c).check_name = "Data Support" ∧
    (a._check_data_support c).severity ≠ Severity.critical ∧
    ((a._check_data_support c).passed = true →
      (a._check_data_support c).severity = Severity.low) := by
  simp only [StatisticalAnalyzer._check_data_support]
  repeat' split
  all_goals simp

theorem relative_risk_rule_shape (a : StatisticalAnalyzer) (c : Claim) :
    (a._check_relative_risk_without_context c).check_name =
      "Relative Risk Without Context" ∧
    (a._check_relative_risk_without_context c).severity ≠ Severity.critical ∧
    ((a._check_relative_risk_without_context c).passed = true →
      (a._check_relative_risk_without_context c).severity = Severity.low) := by
  simp only [StatisticalAnalyzer._check_relative_risk_without_context]
  repeat' split
  all_goals simp

theorem missing_comparator_rule_shape (a : StatisticalAnalyzer) (c : Claim) :
    (a._check_missing_comparator c).check_name = "Missing Comparator" ∧
    (a._check_missing_comparator c).severity ≠ Severity.critical ∧
    ((a._check_missing_comparator c).passed = true →
      (a._check_missing_comparator c).severity = Severity.low) := by
  simp only [StatisticalAnalyzer._check_missing_comparator]
  repeat' split
  all_goals simp

/-- Claim C8.  Method `check_claim` always returns exactly seven checks, in the fixed
rule order; a passing check always has severity low and no rule ever emits
severity critical. -/
theorem check_claim_seven_rules :
    ∀ (a : StatisticalAnalyzer) (c : Claim),
      (a.check_claim c).length = 7 ∧
      (a.check_claim c).map (fun chk => chk.check_name) =
        ["Correlation vs Causation", "Sample Size Disclosure",
         "Extreme Language", "Base Rate Neglect", "Data Support",
         "Relative Risk Without Context", "Missing Comparator"] ∧
      ∀ chk ∈ a.check_claim c,
        chk.severity ≠ Severity.critical ∧
        (chk.passed = true → chk.severity = Severity.low) := by
  intro a c
  refine ⟨rfl, ?_, ?_⟩
  · simp [StatisticalAnalyzer.check_claim,
      (corr_rule_shape a c).1, (sample_size_rule_shape a c).1,
      (extreme_rule_shape a c).1, (base_rate_rule_shape a c).1,
      (data_support_rule_shape a c).1, (relative_risk_rule_shape a c).1,
      (missing_comparator_rule_shape a c).1]
  · intro chk hchk
    simp only [StatisticalAnalyzer.check_claim, List.mem_cons,
      List.not_mem_nil, or_false] at hchk
    rcases hchk with rfl | rfl | rfl | rfl | rfl | rfl | rfl
    · exact (corr_rule_shape a c).2
    · exact (sample_size_rule_shape a c).2
    · exact (extreme_rule_shape a c).2
    · exact (base_rate_rule_shape a c).2
    · exact (data_support_rule_shape a c).2
    · exact (relative_risk_rule_shape a c).2
    · exact (missing_comparator_rule_shape a c).2

/-- Witness for C8: the theorem applied at a concrete claim; the
membership and the pass hypothesis of the inner conjunct are discharged at
the first returned check, which passes on this quote. -/
theorem check_claim_seven_rules_witness :
    (exampleAnalyzer.check_claim (specClaim "A quiet plain sentence")).map
        (fun chk => chk.check_name) =
      ["Correlation vs Causation", "Sample Size Disclosure",
       "Extreme Language", "Base Rate Neglect", "Data Support",
       "Relative Risk Without Context", "Missing Comparator"] ∧
    (exampleAnalyzer._check_correlation_vs_causation
        (specClaim "A quiet plain sentence")).severity = Severity.low :=
  ⟨(check_claim_seven_rules exampleAnalyzer
      (specClaim "A quiet plain sentence")).2.1,
   ((check_claim_seven_rules exampleAnalyzer
      (specClaim "A quiet plain sentence")).2.2
      (exampleAnalyzer._check_correlation_vs_causation
        (specClaim "A quiet plain sentence"))
      (List.mem_cons_self _ _)).2 (by decide)⟩

/-- Claim C9.  For every input text the computed metrics satisfy:
`data_density_score` and `vagueness_score` lie in `[0,1]`; data density is
the fraction of sentences (split on terminal punctuation, empty fragments
discarded) containing a numeric-marker match, 0 if no sentences; vagueness
is `min 1 (10 × hedge matches / word count)`, 0 if no words; and the two
language counts are non-negative integers. -/
theorem text_metrics_spec :
    ∀ (text : String),
      (0 ≤ ((StatisticalAnalyzer.ofText text).calculate_text_metrics).data_density_score ∧
        ((StatisticalAnalyzer.ofText text).calculate_text_metrics).data_density_score ≤ 1) ∧
      (0 ≤ ((StatisticalAnalyzer.ofText text).calculate_text_metrics).vagueness_score ∧
        ((StatisticalAnalyzer.ofText text).calculate_text_metrics).vagueness_score ≤ 1) ∧
      (((StatisticalAnalyzer.ofText text).calculate_text_metrics).data_density_score =
        if _split_sentences text = [] then 0
        else (((_split_sentences text).countP (fun sentence =>
            NUMBER_PATTERNS.any (fun p => reSearch p (sentence.map Char.toLower)))) : ℚ) /
          ((_split_sentences text).length : ℚ)) ∧
      (((StatisticalAnalyzer.ofText text).calculate_text_metrics).vagueness_score =
        if (pyWords text.toList).length = 0 then 0
        else min 1 ((((HEDGE_WORDS.map (fun p => reCount p (lowerStr text))).sum : ℚ) /
          ((pyWords text.toList).length : ℚ)) * 10)) ∧
      (0 ≤ (((StatisticalAnalyzer.ofText text).calculate_text_metrics).extreme_language_count : ℤ) ∧
        0 ≤ (((StatisticalAnalyzer.ofText text).calculate_text_metrics).causation_language_count : ℤ)) := by
  intro text
  have hdd : ((StatisticalAnalyzer.ofText text).calculate_text_metrics).data_density_score =
      if (_split_sentences text).isEmpty then (0 : ℚ)
      else (((_split_sentences text).countP (fun sentence =>
          NUMBER_PATTERNS.any (fun p => reSearch p (sentence.map Char.toLower)))) : ℚ) /
        ((_split_sentences text).length : ℚ) := rfl
  have hv : ((StatisticalAnalyzer.ofText text).calculate_text_metrics).vagueness_score =
      if ((pyWords text.toList).length == 0 : Bool) then (0 : ℚ)
      else min 1 ((((HEDGE_WORDS.map (fun p => reCount p (lowerStr text))).sum : ℚ) /
        ((pyWords text.toList).length : ℚ)) * 10) := rfl
  refine ⟨?_, ?_, ?_, ?_, Int.natCast_nonneg _, Int.natCast_nonneg _⟩
  · rw [hdd]
    by_cases h : _split_sentences text = []
    · rw [if_pos (by simp [List.isEmpty_iff, h])]
      norm_num
    · have hpos : 0 < ((_split_sentences text).length : ℚ) :=
        Nat.cast_pos.mpr (List.length_pos.mpr h)
      have hle : ((_split_sentences text).countP (fun sentence =>
          NUMBER_PATTERNS.any (fun p => reSearch p (sentence.map Char.toLower))) : ℚ) ≤
          ((_split_sentences text).length : ℚ) :=
        Nat.cast_le.mpr (List.countP_le_length _)
      rw [if_neg (by simp [List.isEmpty_iff, h])]
      constructor
      · exact div_nonneg (by positivity) (le_of_lt hpos)
      · rw [div_le_one hpos]
        exact hle
  · rw [hv]
    by_cases h : (pyWords text.toList).length = 0
    · rw [if_pos (by simp only [beq_iff_eq]; exact h)]
      norm_num
    · rw [if_neg (by simp only [beq_iff_eq]; exact h)]
      constructor
      · exact le_min (by norm_num) (by positivity)
      · exact min_le_left _ _
  · rw [hdd]
    simp only [List.isEmpty_iff]
  · rw [hv]
    simp only [beq_iff_eq]

/-- The claimed closed form of the reliability score before clamping:
50 + density×20 − vagueness×15 + (10 if sample size) − capped extreme
penalty − failure-rate×30 (omitted when there are no checks). -/
def reliabilityFormula (tm : TextMetrics) (audits : List ClaimAudit) : ℚ :=
  50 + tm.data_density_score * 20 - tm.vagueness_score * 15 +
    (if tm.sample_size_mentioned then 10 else 0) -
    min ((tm.extreme_language_count : ℚ) * 2) 15 -
    (if totalChecks audits > 0 then
      ((failedChecks audits : ℚ) / (totalChecks audits : ℚ)) * 30
    else 0)

theorem reliability_score_eq (tm : TextMetrics) (audits : List ClaimAudit) :
    calculate_reliability_score tm audits =
      max 0 (min 100 (reliabilityFormula tm audits)) := by
  simp only [calculate_reliability_score, reliabilityFormula]
  by_cases hs : tm.sample_size_mentioned <;>
    by_cases ht : totalChecks audits > 0 <;>
      simp [hs, ht]

theorem clamp_score_mono {x y : ℚ} (h : x ≤ y) :
    max 0 (min 100 x) ≤ max 0 (min 100 y) :=
  max_le_max (le_refl 0) (min_le_min (le_refl 100) h)

/-- Claim C7.  The reliability score equals the clamped linear formula of the
claim, and is monotone in each input direction: non-decreasing in data
density and sample-size mention, non-increasing in vagueness, extreme-word
count, and (at equal check totals) in the number of failed checks. -/
theorem reliability_score_spec :
    (∀ (tm : TextMetrics) (audits : List ClaimAudit),
      calculate_reliability_score tm audits =
        max 0 (min 100 (reliabilityFormula tm audits))) ∧
    (∀ (d1 d2 v : ℚ) (e : Nat) (s : Bool) (cc : Nat) (audits : List ClaimAudit),
      d1 ≤ d2 →
      calculate_reliability_score ⟨d1, v, e, s, cc⟩ audits ≤
        calculate_reliability_score ⟨d2, v, e, s, cc⟩ audits) ∧
    (∀ (d v1 v2 : ℚ) (e : Nat) (s : Bool) (cc : Nat) (audits : List ClaimAudit),
      v1 ≤ v2 →
      calculate_reliability_score ⟨d, v2, e, s, cc⟩ audits ≤
        calculate_reliability_score ⟨d, v1, e, s, cc⟩ audits) ∧
    (∀ (d v : ℚ) (e : Nat) (cc : Nat) (audits : List ClaimAudit),
      calculate_reliability_score ⟨d, v, e, false, cc⟩ audits ≤
        calculate_reliability_score ⟨d, v, e, true, cc⟩ audits) ∧
    (∀ (d v : ℚ) (e1 e2 : Nat) (s : Bool) (cc : Nat) (audits : List ClaimAudit),
      e1 ≤ e2 →
      calculate_reliability_score ⟨d, v, e2, s, cc⟩ audits ≤
        calculate_reliability_score ⟨d, v, e1, s, cc⟩ audits) ∧
    (∀ (tm : TextMetrics) (audits1 audits2 : List ClaimAudit),
      totalChecks audits1 = totalChecks audits2 →
      failedChecks audits1 ≤ failedChecks audits2 →
      calculate_reliability_score tm audits2 ≤
        calculate_reliability_score tm audits1) := by
  refine ⟨reliability_score_eq, ?_, ?_, ?_, ?_, ?_⟩
  · intro d1 d2 v e s cc audits h
    rw [reliability_score_eq, reliability_score_eq]
    apply clamp_score_mono
    simp only [reliabilityFormula]
    have : d1 * 20 ≤ d2 * 20 :=
      mul_le_mul_of_nonneg_right h (by norm_num)
    linarith
  · intro d v1 v2 e s cc audits h
    rw [reliability_score_eq, reliability_score_eq]
    apply clamp_score_mono
    simp only [reliabilityFormula]
    have : v1 * 15 ≤ v2 * 15 :=
      mul_le_mul_of_nonneg_right h (by norm_num)
    linarith
  · intro d v e cc audits
    rw [reliability_score_eq, reliability_score_eq]
    apply clamp_score_mono
    simp only [reliabilityFormula]
    norm_num
  · intro d v e1 e2 s cc audits h
    rw [reliability_score_eq, reliability_score_eq]
    apply clamp_score_mono
    simp only [reliabilityFormula]
    have : min ((e1 : ℚ) * 2) 15 ≤ min ((e2 : ℚ) * 2) 15 :=
      min_le_min (mul_le_mul_of_nonneg_right (Nat.cast_le.mpr h) (by norm_num))
        (le_refl 15)
    linarith
  · intro tm audits1 audits2 ht hf
    rw [reliability_score_eq, reliability_score_eq]
    apply clamp_score_mono
    simp only [reliabilityFormula, ← ht]
    by_cases hpos : totalChecks audits1 > 0
    · have hc : (0 : ℚ) < (totalChecks audits1 : ℚ) := Nat.cast_pos.mpr hpos
      have hdiv : (failedChecks audits1 : ℚ) / (totalChecks audits1 : ℚ) ≤
          (failedChecks audits2 : ℚ) / (totalChecks audits1 : ℚ) :=
        (div_le_div_iff_of_pos_right hc).mpr (Nat.cast_le.mpr hf)
      simp only [hpos, if_pos]
      linarith
    · simp only [hpos, if_neg, if_false]
      simp

/-- Witness for C7: the density-monotonicity part applied at density 0
versus 1 with everything else fixed and no audits. -/
theorem reliability_score_spec_witness :
    (0 : ℚ) ≤ 1 ∧
    calculate_reliability_score ⟨0, 0, 0, false, 0⟩ [] ≤
      calculate_reliability_score ⟨1, 0, 0, false, 0⟩ [] :=
  ⟨by norm_num,
   reliability_score_spec.2.1 0 1 0 0 false 0 [] (by norm_num)⟩

/-- Peeling one failed attempt off the front of the conversation-state
sequence. -/
theorem retryMessagesAt_succ {T : Type} (gen : List Msg → String)
    (pv : String → Except GenError T) (name : String) (msgs : List Msg)
    (e : GenError) (k : Nat)
    (he : pv (String.mk (inlineExtractJson (gen msgs).toList)) = Except.error e) :
    retryMessagesAt gen pv name msgs (k + 1) =
      retryMessagesAt gen pv name
        (msgs ++ failureFeedback (gen msgs) e name) k := by
  show (match pv (String.mk (inlineExtractJson (gen msgs).toList)) with
        | .ok _ => msgs
        | .error e0 => retryMessagesAt gen pv name
            (msgs ++ failureFeedback (gen msgs) e0 name) k) = _
  rw [he]

theorem retry_go_all_fail {T : Type} (gen : List Msg → String)
    (pv : String → Except GenError T) (name : String) (mr : Nat)
    (h : ∀ (msgs : List Msg) (v : T), attemptResult gen pv msgs ≠ Except.ok v) :
    ∀ (remaining : Nat) (msgs : List Msg),
      ∃ e : GenError,
        attemptResult gen pv (retryMessagesAt gen pv name msgs remaining) =
          Except.error e ∧
        validateWithRetryGo gen pv name mr remaining msgs =
          (remaining + 1, Except.error (retryExhaustedMessage name mr e)) := by
  intro remaining
  induction remaining with
  | zero =>
    intro msgs
    cases he : attemptResult gen pv msgs with
    | ok v => exact absurd he (h msgs v)
    | error e =>
      have he' : pv (String.mk (inlineExtractJson (gen msgs).toList)) =
          Except.error e := he
      refine ⟨e, he, ?_⟩
      simp only [validateWithRetryGo]
      rw [he']
  | succ r ih =>
    intro msgs
    cases he : attemptResult gen pv msgs with
    | ok v => exact absurd he (h msgs v)
    | error e =>
      have he' : pv (String.mk (inlineExtractJson (gen msgs).toList)) =
          Except.error e := he
      obtain ⟨e2, hlast, heq⟩ :=
        ih (msgs ++ failureFeedback (gen msgs) e name)
      refine ⟨e2, ?_, ?_⟩
      · rw [retryMessagesAt_succ gen pv name msgs e r he']
        exact hlast
      · simp only [validateWithRetryGo]
        rw [he']
        simp [heq]

theorem retry_go_ok_at {T : Type} (gen : List Msg → String)
    (pv : String → Except GenError T) (name : String) (mr : Nat) (v : T) :
    ∀ (k remaining : Nat) (msgs : List Msg),
      k ≤ remaining →
      (∀ j < k, ∀ w : T,
        attemptResult gen pv (retryMessagesAt gen pv name msgs j) ≠ Except.ok w) →
      attemptResult gen pv (retryMessagesAt gen pv name msgs k) = Except.ok v →
      validateWithRetryGo gen pv name mr remaining msgs = (k + 1, Except.ok v) := by
  intro k
  induction k with
  | zero =>
    intro remaining msgs _ _ hok
    have hok' : pv (String.mk (inlineExtractJson (gen msgs).toList)) =
        Except.ok v := hok
    cases remaining <;> · simp only [validateWithRetryGo]; rw [hok']
  | succ k ih =>
    intro remaining msgs hk hfail hok
    cases remaining with
    | zero => omega
    | succ r =>
      have h0 := hfail 0 (Nat.succ_pos k)
      cases he : attemptResult gen pv msgs with
      | ok w =>
        exact absurd
          (show attemptResult gen pv (retryMessagesAt gen pv name msgs 0) =
            Except.ok w from he) (h0 w)
      | error e =>
        have he' : pv (String.mk (inlineExtractJson (gen msgs).toList)) =
            Except.error e := he
        have hshift : ∀ j, retryMessagesAt gen pv name msgs (j + 1) =
            retryMessagesAt gen pv name
              (msgs ++ failureFeedback (gen msgs) e name) j := by
          intro j
          show (match pv (String.mk (inlineExtractJson (gen msgs).toList)) with
                | .ok _ => msgs
                | .error e0 => retryMessagesAt gen pv name
                    (msgs ++ failureFeedback (gen msgs) e0 name) j) = _
          rw [he']
        have hfail' : ∀ j < k, ∀ w : T,
            attemptResult gen pv (retryMessagesAt gen pv name
              (msgs ++ failureFeedback (gen msgs) e name) j) ≠ Except.ok w := by
          intro j hj w
          rw [← hshift j]
          exact hfail (j + 1) (by omega) w
        have hok' : attemptResult gen pv (retryMessagesAt gen pv name
            (msgs ++ failureFeedback (gen msgs) e name) k) = Except.ok v := by
          rw [← hshift k]
          exact hok
        have hrec := ih r (msgs ++ failureFeedback (gen msgs) e name)
          (by omega) hfail' hok'
        simp only [validateWithRetryGo]
        rw [he']
        simp [hrec]

/-- Claim C5.  If every generation attempt fails parsing/validation, the loop
makes exactly `max_retries + 1` attempts and fails with the retry-exhausted
message carrying the last underlying error — the error produced by the
final attempt, at the conversation state `retryMessagesAt … init mr`
reached after the first `mr` failures; if the first success falls within
the bound (after `k` failed attempts along the loop's actual conversation
states), the loop returns that validated value after `k + 1` attempts. -/
theorem validate_with_retry_spec :
    (∀ (T : Type) (gen : List Msg → String)
      (pv : String → Except GenError T) (name : String) (mr : Nat)
      (init : List Msg),
      (∀ (msgs : List Msg) (v : T), attemptResult gen pv msgs ≠ Except.ok v) →
      ∃ e : GenError,
        attemptResult gen pv (retryMessagesAt gen pv name init mr) =
          Except.error e ∧
        validate_with_retry gen pv name mr init =
          (mr + 1, Except.error (retryExhaustedMessage name mr e))) ∧
    (∀ (T : Type) (gen : List Msg → String)
      (pv : String → Except GenError T) (name : String) (mr : Nat)
      (init : List Msg) (k : Nat) (v : T),
      k ≤ mr →
      (∀ j < k, ∀ w : T,
        attemptResult gen pv (retryMessagesAt gen pv name init j) ≠ Except.ok w) →
      attemptResult gen pv (retryMessagesAt gen pv name init k) = Except.ok v →
      validate_with_retry gen pv name mr init = (k + 1, Except.ok v)) := by
  constructor
  · intro T gen pv name mr init h
    exact retry_go_all_fail gen pv name mr h mr init
  · intro T gen pv name mr init k v hk hfail hok
    exact retry_go_ok_at gen pv name mr v k mr init hk hfail hok

/-- A generation stub that always produces unparseable output, and
parse/validate oracles that always fail resp. always succeed. -/
def stubGen : List Msg → String := fun _ => "this is not json"

def stubFail : String → Except GenError Nat :=
  fun _ => Except.error (GenError.jsonDecode "Expecting value: line 1 column 1 (char 0)")

def stubOk : String → Except GenError Nat := fun _ => Except.ok 42

/-- Witness for C5: with the always-failing stub and the default
`max_retries = 3` the loop makes exactly 4 attempts and exhausts with the
final attempt's error; with an always-valid stub it succeeds on the first
attempt. -/
theorem validate_with_retry_spec_witness :
    (∃ e : GenError,
      attemptResult stubGen stubFail
          (retryMessagesAt stubGen stubFail "ClaimsExtraction" [] 3) =
        Except.error e ∧
      validate_with_retry stubGen stubFail "ClaimsExtraction" 3 [] =
        (3 + 1, Except.error (retryExhaustedMessage "ClaimsExtraction" 3 e))) ∧
    validate_with_retry stubGen stubOk "ClaimsExtraction" 3 [] =
      (0 + 1, Except.ok 42) :=
  ⟨validate_with_retry_spec.1 Nat stubGen stubFail "ClaimsExtraction" 3 []
      (by intro msgs v h; simp [attemptResult, stubFail] at h),
   validate_with_retry_spec.2 Nat stubGen stubOk "ClaimsExtraction" 3 [] 0 42
      (by omega) (by intro j hj; omega) (by simp [attemptResult, stubOk, retryMessagesAt])⟩

end Nuance
